/-
Verification of the dit HTML form/page classifier (github.com/happyhackingspace/dit).

This file shallowly embeds the Go sources:
  - classifier/pagetype.go   (PageTypeModel: Classify, ClassifyProba, TrainPageType)
  - classifier/captcha.go    (CaptchaType, CaptchaDetector.DetectInForm, DetectCaptchaInHTML)
  - captcha/captcha.go       (two revisions of package captcha: a map-based one, called
                              captchaV1 below, and a slice-based one with an extra
                              IDs/alt-text detection layer, called captchaV2 below)
  - the form feature extractors (FormElements.ExtractDict, FormUrl.ExtractString, ...)
  - the dit package captcha-merge logic of ExtractForms / ExtractFormsProba

Modelling conventions:
  - Go strings are Lean Strings; strings.ToLower is modelled by mapping Char.toLower
    over the string (all patterns in the sources are ASCII).
  - strings.Contains is containsStr below (substring occurrence).
  - A goquery form node is abstracted as a Form record holding exactly the projections
    the detectors read: inner HTML, script src attributes (own and parent), script
    text bodies, iframe src attributes, element ids, img alt attributes.
  - Go map iteration order is deliberately randomized at runtime, so every loop
    `for k, v := range someMap` is embedded as a loop over an explicit list that the
    theorems quantify over, constrained to be a permutation of the map's entry list
    (written in source-text order).
  - Regular expressions in the sources are all of the shape
    literal₁ .* literal₂ .* ..., and are embedded as lists of literal parts
    (matchParts below).  The Go regexps are matched against already-lowercased
    strings while some patterns contain capitals; the embedding keeps the patterns
    verbatim, so such patterns never match, exactly as in the source.
  - float64 is modelled as the real numbers; code not present under src/
    (internal/vectorizer, internal/htmlutil, trainLogReg, softmax) is either taken
    as an abstract input or modelled from the spec, as marked at each definition.
-/
import Mathlib

/-! ## String helpers -/

/-- Model of strings.ToLower restricted to ASCII (all patterns in the sources are ASCII). -/
def toLowerStr (s : String) : String :=
  ⟨s.data.map Char.toLower⟩

/-- pat occurs as a contiguous run inside s. -/
def infixOfList : List Char → List Char → Bool
  | pat, [] => pat.isEmpty
  | pat, c :: tl => pat.isPrefixOf (c :: tl) || infixOfList pat tl

/-- Model of strings.Contains hay pat : pat occurs as a contiguous substring of hay. -/
def containsStr (hay pat : String) : Bool :=
  infixOfList pat.data hay.data

/-- If pre is a prefix of s, drop it and return the rest. -/
def dropIfStarts (s pre : List Char) : Option (List Char) :=
  if pre.isPrefixOf s then some (s.drop pre.length) else none

/-- Scan s for the first occurrence of pat; return the remainder after that occurrence. -/
def restAfterFirst (pat : List Char) (s : List Char) : Option (List Char) :=
  match dropIfStarts s pat with
  | some rest => some rest
  | none =>
    match s with
    | [] => none
    | _ :: tl => restAfterFirst pat tl

/-- Model of an unanchored Go regexp of the shape lit₁.*lit₂.*…: the literal parts
must occur in order.  (The embedding lets .* also cross a newline; the matched
strings in the sources are attribute values, which contain none.) -/
def matchParts (parts : List String) (s : String) : Bool :=
  go (parts.map String.toList) s.toList
where
  go : List (List Char) → List Char → Bool
  | [], _ => true
  | p :: rest, cs =>
    match restAfterFirst p cs with
    | some remainder => go rest remainder
    | none => false

/-! ## CaptchaType (classifier/captcha.go and captcha/captcha.go, identical constant sets) -/

/-- The CaptchaType string enumeration common to both packages. -/
inductive CaptchaType where
  | none
  | recaptcha
  | recaptchav2
  | recaptchaInvisible
  | hcaptcha
  | turnstile
  | geetest
  | friendlycaptcha
  | rotatecaptcha
  | clickcaptcha
  | imagecaptcha
  | puzzlecaptcha
  | slidercaptcha
  | mcaptcha
  | datadome
  | perimeterx
  | argon
  | behaviotech
  | smartcaptcha
  | yandex
  | funcaptcha
  | kasada
  | imperva
  | awswaf
  | wsiz
  | novascape
  | simplecaptcha
  | other
deriving DecidableEq, Repr

/-- The underlying Go string of each CaptchaType constant. -/
def CaptchaType.str : CaptchaType → String
  | .none => "none"
  | .recaptcha => "recaptcha"
  | .recaptchav2 => "recaptchav2"
  | .recaptchaInvisible => "recaptcha-invisible"
  | .hcaptcha => "hcaptcha"
  | .turnstile => "turnstile"
  | .geetest => "geetest"
  | .friendlycaptcha => "friendlycaptcha"
  | .rotatecaptcha => "rotatecaptcha"
  | .clickcaptcha => "clickcaptcha"
  | .imagecaptcha => "imagecaptcha"
  | .puzzlecaptcha => "puzzlecaptcha"
  | .slidercaptcha => "slidercaptcha"
  | .mcaptcha => "mcaptcha"
  | .datadome => "datadome"
  | .perimeterx => "perimeterx"
  | .argon => "argon"
  | .behaviotech => "behaviotech"
  | .smartcaptcha => "smartcaptcha"
  | .yandex => "yandex"
  | .funcaptcha => "funcaptcha"
  | .kasada => "kasada"
  | .imperva => "imperva"
  | .awswaf => "awswaf"
  | .wsiz => "wsiz"
  | .novascape => "novascape"
  | .simplecaptcha => "simplecaptcha"
  | .other => "other"

/-! ## Abstract form node -/

/-- Abstraction of a goquery form selection: exactly the projections the captcha
detectors read.  html is the raw inner HTML (form.Html()); the src/id/alt lists are
in document order, as goquery's Each visits them. -/
structure Form where
  html : String
  scriptSrcs : List String
  parentScriptSrcs : List String
  scriptTexts : List String
  iframeSrcs : List String
  ids : List String
  imgAlts : List String

/-! ## Generic pattern-table scanners (the shared loop shape of the detectors) -/

/-- First entry of the table one of whose literal patterns occurs in hay; otherwise none.
This is the loop `for type, patterns := range table: for p: if Contains(hay, p) return type`. -/
def scanTable : List (CaptchaType × List String) → String → CaptchaType
  | [], _ => .none
  | (t, pats) :: rest, hay =>
    if pats.any (fun p => containsStr hay p) then t else scanTable rest hay

/-- Table scan over a list of candidate strings (script/iframe src lists):
first entry one of whose literal patterns occurs in some candidate. -/
def scanSrcsTable : List (CaptchaType × List String) → List String → CaptchaType
  | [], _ => .none
  | (t, pats) :: rest, srcs =>
    if srcs.any (fun src => pats.any (fun p => containsStr src p)) then t
    else scanSrcsTable rest srcs

/-- Table scan with regexp patterns (lists of literal parts) over candidate strings. -/
def scanRegexSrcsTable : List (CaptchaType × List (List String)) → List String → CaptchaType
  | [], _ => .none
  | (t, pats) :: rest, srcs =>
    if srcs.any (fun src => pats.any (fun p => matchParts p src)) then t
    else scanRegexSrcsTable rest srcs

/-- Table scan with regexp patterns against a single string. -/
def scanRegexTable : List (CaptchaType × List (List String)) → String → CaptchaType
  | [], _ => .none
  | (t, pats) :: rest, hay =>
    if pats.any (fun p => matchParts p hay) then t else scanRegexTable rest hay

example : containsStr "abcdef" "cde" = true := by decide
example : containsStr "abcdef" "cdf" = false := by decide
example : matchParts ["recaptcha", ".js"] "xrecaptcha/api.js" = true := by decide
example : matchParts ["recaptcha", ".js"] "recaptcha" = false := by decide
example : toLowerStr "AbC" = "abc" := by decide

/-! ## Shared pattern tables

The script-domain regexp table appears verbatim in classifier/captcha.go
(detectByScriptDomain) and in both revisions of captcha/captcha.go (as a map in the
first revision and classifier file, as an ordered slice in the second revision, with
identical entries in the same source-text order).  Each regexp is written as its
list of literal parts separated by .* . -/

/-- scriptPatterns of detectByScriptDomain, entries in source-text order. -/
def scriptDomainPatterns : List (CaptchaType × List (List String)) :=
  [ (.recaptcha, [["google.com/recaptcha"], ["recaptcha", ".js"], ["gstatic.com/", "recaptcha"]])
  , (.recaptchav2, [["recaptcha", "v2"], ["recaptcha/api.js"]])
  , (.recaptchaInvisible, [["recaptcha", "invisible"], ["grecaptcha.render", "invisible"]])
  , (.hcaptcha, [["js.hcaptcha.com"], ["hcaptcha"]])
  , (.turnstile, [["challenges.cloudflare.com"], ["js.cloudflare.com", "turnstile"]])
  , (.geetest, [["geetest"], ["api.geetest.com"]])
  , (.friendlycaptcha, [["friendlycaptcha"], ["cdn.friendlycaptcha.com"]])
  , (.rotatecaptcha, [["api.rotatecaptcha.com"]])
  , (.clickcaptcha, [["assets.clickcaptcha.com"]])
  , (.imagecaptcha, [["api.imagecaptcha.com"]])
  , (.puzzlecaptcha, [["puzzle", "captcha"]])
  , (.slidercaptcha, [["slider", "captcha"], ["api.slidercaptcha.com"], ["slidercaptcha.com"]])
  , (.datadome, [["datadome.co"], ["cdn.mxpnl.com"]])
  , (.perimeterx, [["perimeterx.net"]])
  , (.argon, [["argon", "captcha"], ["captcha.argon"]])
  , (.behaviotech, [["behaviotech.com"]])
  , (.smartcaptcha, [["captcha.yandex.com"], ["smartcaptcha.yandex"]])
  , (.yandex, [["yandex.com/", "captcha"], ["captcha.yandex"], ["smartcaptcha.yandex"]])
  , (.funcaptcha, [["funcaptcha.com"], ["api.funcaptcha.com"]])
  , (.wsiz, [["wsiz.com"]])
  , (.novascape, [["novascape.com"]])
  , (.mcaptcha, [["mcaptcha"], ["app.mcaptcha.io"]])
  , (.kasada, [["kasada"], ["kas.kasadaproducts.com"]])
  , (.imperva, [["/_Incapsula_Resource"], ["incapsula"], ["imperva"]])
  , (.awswaf, [["/aws-waf-captcha/"], ["awswaf.com"], ["captcha.aws.amazon.com"]]) ]

/-- simpleCaptchaPatterns: field-name markers of simple text captchas, shared by
detectByFieldNames (both packages) and DetectCaptchaInHTML priority 3. -/
def simpleCaptchaPatterns : List String :=
  [ "simplecaptcha", "captcha_code", "captcha_input", "verify_code"
  , "verification_code", "security_code", "text_captcha", "captcha_result" ]

namespace classifier

/-- classPatterns of classifier/captcha.go detectByClasses (a Go map; source-text order). -/
def classPatterns : List (CaptchaType × List String) :=
  [ (.recaptcha, ["g-recaptcha", "grecaptcha"])
  , (.recaptchav2, ["g-recaptcha-v2", "grecaptcha-v2"])
  , (.recaptchaInvisible, ["g-recaptcha-invisible", "grecaptcha-invisible"])
  , (.hcaptcha, ["h-captcha", "hcaptcha"])
  , (.turnstile, ["cf-turnstile", "cloudflare-turnstile-challenge", "turnstile"])
  , (.geetest, ["geetest_", "geetest-box"])
  , (.friendlycaptcha, ["frc-captcha", "friendlycaptcha"])
  , (.rotatecaptcha, ["rotate-captcha", "rotatecaptcha"])
  , (.clickcaptcha, ["click-captcha", "clickcaptcha"])
  , (.imagecaptcha, ["image-captcha", "imagecaptcha"])
  , (.puzzlecaptcha, ["puzzle-captcha", "__puzzle_captcha"])
  , (.slidercaptcha, ["slider-captcha", "slidercaptcha", "slide-verify"])
  , (.datadome, ["dd-challenge", "dd-top"])
  , (.perimeterx, ["_px3", "px-container"])
  , (.argon, ["argon-captcha"])
  , (.smartcaptcha, ["smart-captcha"])
  , (.yandex, ["smartcaptcha", "yandex-captcha"])
  , (.funcaptcha, ["funcaptcha-container"])
  , (.mcaptcha, ["mcaptcha", "mcaptcha-container"])
  , (.kasada, ["kas", "kasada"])
  , (.imperva, ["_inc", "incapsula", "imperva"])
  , (.awswaf, ["aws-waf", "awswaf"]) ]

/-- dataAttrPatterns of classifier/captcha.go detectByDataAttributes. -/
def dataAttrPatterns : List (CaptchaType × List String) :=
  [ (.geetest, ["id_geetest", "geetest_id"])
  , (.friendlycaptcha, ["frc-captcha", "data-public-key"])
  , (.slidercaptcha, ["data-slideshow", "slide-verify-container"])
  , (.datadome, ["dd-challenge", "dd-action"])
  , (.yandex, ["data-smartcaptcha", "captcha-container-yandex"])
  , (.perimeterx, ["_pxappid", "_px3"])
  , (.argon, ["argon-captcha"])
  , (.smartcaptcha, ["smart-captcha"]) ]

/-- iframePatterns of classifier/captcha.go detectByIframe. -/
def iframePatterns : List (CaptchaType × List String) :=
  [ (.recaptcha, ["recaptcha"])
  , (.hcaptcha, ["hcaptcha"])
  , (.turnstile, ["challenges.cloudflare.com"])
  , (.geetest, ["geetest"])
  , (.slidercaptcha, ["slidercaptcha", "slide-verify"])
  , (.mcaptcha, ["mcaptcha", "app.mcaptcha.io"])
  , (.yandex, ["yandex", "smartcaptcha"])
  , (.kasada, ["kasada", "kas"])
  , (.imperva, ["incapsula", "imperva"])
  , (.datadome, ["datadome"]) ]

/-- detectByClasses: scan the lowercased form HTML against classPatterns.
clsOrder is the runtime iteration order of the Go map. -/
def detectByClasses (clsOrder : List (CaptchaType × List String)) (form : Form) : CaptchaType :=
  scanTable clsOrder (toLowerStr form.html)

/-- detectByScriptDomain: collect lowercased script srcs of the form and its parent,
match them against the regexp table.  scriptOrder is the map iteration order. -/
def detectByScriptDomain (scriptOrder : List (CaptchaType × List (List String)))
    (form : Form) : CaptchaType :=
  scanRegexSrcsTable scriptOrder
    ((form.scriptSrcs ++ form.parentScriptSrcs).map toLowerStr)

/-- detectByDataAttributes: scan the lowercased form HTML against dataAttrPatterns. -/
def detectByDataAttributes (dataOrder : List (CaptchaType × List String))
    (form : Form) : CaptchaType :=
  scanTable dataOrder (toLowerStr form.html)

/-- detectByFieldNames: any simple-captcha field marker yields simplecaptcha. -/
def detectByFieldNames (form : Form) : CaptchaType :=
  if simpleCaptchaPatterns.any (fun p => containsStr (toLowerStr form.html) p) then
    .simplecaptcha
  else .none

/-- detectByIframe: only when the raw HTML mentions an iframe, scan iframePatterns. -/
def detectByIframe (iframeOrder : List (CaptchaType × List String))
    (form : Form) : CaptchaType :=
  let h := toLowerStr form.html
  if containsStr h "iframe" then scanTable iframeOrder h else .none

/-- hasGenericCaptchaMarkers: an iframe together with a captcha/challenge/security
keyword, or a script body mentioning captcha/antibot/challenge. -/
def hasGenericCaptchaMarkers (form : Form) : Bool :=
  let h := toLowerStr form.html
  (containsStr h "iframe" &&
    (containsStr h "captcha" || containsStr h "challenge" || containsStr h "security")) ||
  form.scriptTexts.any (fun t =>
    let tl := toLowerStr t
    containsStr tl "captcha" || containsStr tl "antibot" || containsStr tl "challenge")

/-- CaptchaDetector.DetectInForm of classifier/captcha.go: the six detection layers
in source order.  The three map-iteration orders are explicit parameters. -/
def DetectInForm (clsOrder : List (CaptchaType × List String))
    (scriptOrder : List (CaptchaType × List (List String)))
    (dataOrder iframeOrder : List (CaptchaType × List String))
    (form : Form) : CaptchaType :=
  let c1 := detectByClasses clsOrder form
  if c1 ≠ .none then c1 else
  let c2 := detectByScriptDomain scriptOrder form
  if c2 ≠ .none then c2 else
  let c3 := detectByDataAttributes dataOrder form
  if c3 ≠ .none then c3 else
  let c4 := detectByFieldNames form
  if c4 ≠ .none then c4 else
  let c5 := detectByIframe iframeOrder form
  if c5 ≠ .none then c5 else
  if hasGenericCaptchaMarkers form then .other else .none

/-- domainPatterns of classifier/captcha.go DetectCaptchaInHTML (a Go map).
Note the source uses strings.Contains on these, so the ones that look like
regexps are in fact literal substrings here. -/
def domainPatterns : List (CaptchaType × List String) :=
  [ (.recaptcha, ["google.com/recaptcha", "gstatic.com", "recaptcha"])
  , (.recaptchav2, ["recaptcha/api.js", "recaptcha.*v2"])
  , (.recaptchaInvisible, ["recaptcha.*invisible"])
  , (.hcaptcha, ["hcaptcha", "js.hcaptcha.com"])
  , (.turnstile, ["challenges.cloudflare.com", "js.cloudflare.com"])
  , (.geetest, ["geetest", "api.geetest.com"])
  , (.friendlycaptcha, ["friendlycaptcha", "cdn.friendlycaptcha.com"])
  , (.rotatecaptcha, ["rotatecaptcha", "api.rotatecaptcha.com"])
  , (.clickcaptcha, ["clickcaptcha", "assets.clickcaptcha.com"])
  , (.imagecaptcha, ["imagecaptcha", "api.imagecaptcha.com"])
  , (.puzzlecaptcha, ["puzzle-captcha", "__puzzle_captcha"])
  , (.slidercaptcha, ["slider-captcha", "slidercaptcha"])
  , (.mcaptcha, ["mcaptcha", "app.mcaptcha.io"])
  , (.kasada, ["kasada", "kas.kasadaproducts.com"])
  , (.imperva, ["incapsula", "imperva"])
  , (.awswaf, ["awswaf", "captcha.aws.amazon.com"])
  , (.datadome, ["datadome", "dd-challenge"])
  , (.perimeterx, ["perimeterx", "_pxappid"])
  , (.argon, ["argon-captcha"])
  , (.behaviotech, ["behaviotech"])
  , (.smartcaptcha, ["captcha.yandex.com", "smartcaptcha"])
  , (.yandex, ["yandex.com/.*captcha", "yandex.ru/.*captcha", "smartcaptcha.yandex"])
  , (.funcaptcha, ["funcaptcha", "arkose"])
  , (.wsiz, ["wsiz.com"])
  , (.novascape, ["novascape"]) ]

/-- classPatterns of classifier/captcha.go DetectCaptchaInHTML priority 2 (a Go map). -/
def htmlClassPatterns : List (CaptchaType × List String) :=
  [ (.recaptcha, ["g-recaptcha", "grecaptcha"])
  , (.recaptchav2, ["g-recaptcha-v2", "grecaptcha-v2"])
  , (.recaptchaInvisible, ["g-recaptcha-invisible", "grecaptcha-invisible"])
  , (.hcaptcha, ["h-captcha", "hcaptcha"])
  , (.turnstile, ["cf-turnstile", "cloudflare-turnstile-challenge", "turnstile"])
  , (.geetest, ["geetest_", "geetest-box"])
  , (.friendlycaptcha, ["frc-captcha", "friendlycaptcha"])
  , (.rotatecaptcha, ["rotate-captcha", "rotatecaptcha"])
  , (.clickcaptcha, ["click-captcha", "clickcaptcha"])
  , (.imagecaptcha, ["image-captcha", "imagecaptcha"])
  , (.puzzlecaptcha, ["puzzle-captcha", "__puzzle_captcha"])
  , (.slidercaptcha, ["slider-captcha", "slidercaptcha"])
  , (.mcaptcha, ["mcaptcha", "mcaptcha-container"])
  , (.kasada, ["kas", "kasada"])
  , (.imperva, ["_inc", "incapsula", "imperva"])
  , (.awswaf, ["aws-waf", "awswaf"])
  , (.datadome, ["dd-challenge", "dd-top"])
  , (.perimeterx, ["_px3", "px-container"])
  , (.argon, ["argon-captcha"])
  , (.smartcaptcha, ["smart-captcha"])
  , (.yandex, ["smartcaptcha", "yandex-captcha"])
  , (.funcaptcha, ["funcaptcha-container"]) ]

/-- DetectCaptchaInHTML of classifier/captcha.go: domain patterns, then class
patterns, then simple field names, on the lowercased document.  domOrder and
clsOrder are the two map iteration orders. -/
def DetectCaptchaInHTML (domOrder clsOrder : List (CaptchaType × List String))
    (html : String) : CaptchaType :=
  let h := toLowerStr html
  let d := scanTable domOrder h
  if d ≠ .none then d else
  let c := scanTable clsOrder h
  if c ≠ .none then c else
  if simpleCaptchaPatterns.any (fun p => containsStr h p) then .simplecaptcha else .none

end classifier

/-! ## Package captcha, first revision (Go maps for the pattern tables) -/

namespace captchaV1

/-- classPatterns of the map-based captcha/captcha.go detectByClasses. -/
def classPatterns : List (CaptchaType × List String) :=
  [ (.recaptcha, ["g-recaptcha", "grecaptcha"])
  , (.recaptchav2, ["g-recaptcha-v2", "grecaptcha-v2"])
  , (.recaptchaInvisible, ["g-recaptcha-invisible", "grecaptcha-invisible"])
  , (.hcaptcha, ["h-captcha", "hcaptcha"])
  , (.turnstile, ["cf-turnstile", "turnstile"])
  , (.geetest, ["geetest_", "geetest-box"])
  , (.friendlycaptcha, ["frc-captcha", "friendlycaptcha"])
  , (.mcaptcha, ["mcaptcha", "mcaptcha-container"])
  , (.kasada, ["kas", "kasada"])
  , (.imperva, ["_inc", "incapsula", "imperva"])
  , (.awswaf, ["aws-waf", "awswaf"])
  , (.datadome, ["dd-challenge", "dd-top"])
  , (.perimeterx, ["_px3", "px-container"])
  , (.smartcaptcha, ["smart-captcha", "smartcaptcha"])
  , (.argon, ["argon-captcha", "argon"])
  , (.puzzlecaptcha, ["puzzle-captcha", "__puzzle_captcha"])
  , (.yandex, ["smartcaptcha", "yandex-captcha"])
  , (.funcaptcha, ["funcaptcha-container"]) ]

/-- dataAttrPatterns of captcha/captcha.go detectByDataAttributes (both revisions). -/
def dataAttrPatterns : List (CaptchaType × List String) :=
  [ (.kasada, ["data-kasada", "kasada"])
  , (.imperva, ["data-incapsula", "data-imperva"])
  , (.datadome, ["data-datadome", "dd-challenge"])
  , (.perimeterx, ["data-px", "_pxappid"])
  , (.mcaptcha, ["data-mcaptcha"])
  , (.smartcaptcha, ["data-smartcaptcha", "smartcaptcha"]) ]

/-- iframePatterns of captcha/captcha.go detectByIframe (both revisions); matched
against the form's iframe src attributes. -/
def iframePatterns : List (CaptchaType × List String) :=
  [ (.recaptcha, ["google.com/recaptcha", "www.google.com/recaptcha"])
  , (.hcaptcha, ["hcaptcha.com"])
  , (.turnstile, ["cloudflare.com/turnstile"])
  , (.funcaptcha, ["funcaptcha"])
  , (.yandex, ["yandex", "smartcaptcha"]) ]

/-- genericMarkers of captcha/captcha.go hasGenericCaptchaMarkers (both revisions). -/
def genericMarkers : List String :=
  ["captcha", "g-recaptcha", "h-captcha", "turnstile", "geetest"]

def detectByClasses (clsOrder : List (CaptchaType × List String)) (form : Form) : CaptchaType :=
  scanTable clsOrder (toLowerStr form.html)

def detectByScriptDomain (scriptOrder : List (CaptchaType × List (List String)))
    (form : Form) : CaptchaType :=
  scanRegexSrcsTable scriptOrder
    ((form.scriptSrcs ++ form.parentScriptSrcs).map toLowerStr)

def detectByDataAttributes (dataOrder : List (CaptchaType × List String))
    (form : Form) : CaptchaType :=
  scanTable dataOrder (toLowerStr form.html)

/-- detectByFieldNames of captcha/captcha.go (both revisions): puzzle markers first,
then the simple-captcha field names. -/
def detectByFieldNames (form : Form) : CaptchaType :=
  let h := toLowerStr form.html
  if containsStr h "__puzzle_captcha" || containsStr h "puzzle-captcha" then .puzzlecaptcha
  else if simpleCaptchaPatterns.any (fun p => containsStr h p) then .simplecaptcha
  else .none

def detectByIframe (iframeOrder : List (CaptchaType × List String))
    (form : Form) : CaptchaType :=
  scanSrcsTable iframeOrder (form.iframeSrcs.map toLowerStr)

def hasGenericCaptchaMarkers (form : Form) : Bool :=
  genericMarkers.any (fun m => containsStr (toLowerStr form.html) m)

/-- CaptchaDetector.DetectInForm, first revision: six layers, with the four
map-iteration orders explicit. -/
def DetectInForm (clsOrder : List (CaptchaType × List String))
    (scriptOrder : List (CaptchaType × List (List String)))
    (dataOrder iframeOrder : List (CaptchaType × List String))
    (form : Form) : CaptchaType :=
  let c1 := detectByClasses clsOrder form
  if c1 ≠ .none then c1 else
  let c2 := detectByScriptDomain scriptOrder form
  if c2 ≠ .none then c2 else
  let c3 := detectByDataAttributes dataOrder form
  if c3 ≠ .none then c3 else
  let c4 := detectByFieldNames form
  if c4 ≠ .none then c4 else
  let c5 := detectByIframe iframeOrder form
  if c5 ≠ .none then c5 else
  if hasGenericCaptchaMarkers form then .other else .none

end captchaV1

/-! ## Package captcha, second revision (ordered slices, extra IDs/alt layer) -/

namespace captchaV2

/-- classPatterns of the slice-based captcha/captcha.go detectByClasses: the first
revision's entries plus the gee-test marker for geetest; the slice fixes the order. -/
def classPatterns : List (CaptchaType × List String) :=
  [ (.recaptcha, ["g-recaptcha", "grecaptcha"])
  , (.recaptchav2, ["g-recaptcha-v2", "grecaptcha-v2"])
  , (.recaptchaInvisible, ["g-recaptcha-invisible", "grecaptcha-invisible"])
  , (.hcaptcha, ["h-captcha", "hcaptcha"])
  , (.turnstile, ["cf-turnstile", "turnstile"])
  , (.geetest, ["geetest_", "geetest-box", "gee-test"])
  , (.friendlycaptcha, ["frc-captcha", "friendlycaptcha"])
  , (.mcaptcha, ["mcaptcha", "mcaptcha-container"])
  , (.kasada, ["kas", "kasada"])
  , (.imperva, ["_inc", "incapsula", "imperva"])
  , (.awswaf, ["aws-waf", "awswaf"])
  , (.datadome, ["dd-challenge", "dd-top"])
  , (.perimeterx, ["_px3", "px-container"])
  , (.smartcaptcha, ["smart-captcha", "smartcaptcha"])
  , (.argon, ["argon-captcha", "argon"])
  , (.puzzlecaptcha, ["puzzle-captcha", "__puzzle_captcha"])
  , (.yandex, ["smartcaptcha", "yandex-captcha"])
  , (.funcaptcha, ["funcaptcha-container"]) ]

/-- idPatterns of detectByIDsAndAlt: element-id markers per captcha type. -/
def idPatterns : List (CaptchaType × List String) :=
  [ (.geetest, ["geetest", "gt-captcha", "embed-captcha"])
  , (.recaptcha, ["recaptcha"])
  , (.hcaptcha, ["hcaptcha", "h-captcha"])
  , (.turnstile, ["cf-turnstile", "turnstile"])
  , (.funcaptcha, ["funcaptcha", "arkose"]) ]

/-- altPatterns of detectByIDsAndAlt: img alt-text markers. -/
def altPatterns : List (CaptchaType × String) :=
  [ (.rotatecaptcha, "rotatecaptcha")
  , (.clickcaptcha, "clickcaptcha")
  , (.imagecaptcha, "imagecaptcha")
  , (.puzzlecaptcha, "puzzlecaptcha")
  , (.slidercaptcha, "slidercaptcha")
  , (.simplecaptcha, "textcaptcha")
  , (.simplecaptcha, "text-captcha") ]

def detectByClasses (form : Form) : CaptchaType :=
  scanTable classPatterns (toLowerStr form.html)

def detectByScriptDomain (form : Form) : CaptchaType :=
  scanRegexSrcsTable scriptDomainPatterns
    ((form.scriptSrcs ++ form.parentScriptSrcs).map toLowerStr)

def detectByDataAttributes (form : Form) : CaptchaType :=
  scanTable captchaV1.dataAttrPatterns (toLowerStr form.html)

/-- One step of the id scan of detectByIDsAndAlt: the first entry whose current
patterns contain a marker occurring in the lowercased id gets its patterns replaced
by the __matched__ sentinel (exactly the in-place mutation of the source). -/
def markFirst (idLower : String) :
    List (CaptchaType × List String) → List (CaptchaType × List String)
  | [] => []
  | (t, pats) :: rest =>
    if pats.any (fun p => containsStr idLower p) then (t, ["__matched__"]) :: rest
    else (t, pats) :: markFirst idLower rest

/-- The alt phase of detectByIDsAndAlt: in document order, the first img alt that
contains some marker decides, by that marker's table position. -/
def altScan : List String → CaptchaType
  | [] => .none
  | alt :: rest =>
    match altPatterns.find? (fun e => containsStr (toLowerStr alt) e.2) with
    | some e => e.1
    | none => altScan rest

/-- detectByIDsAndAlt of the second revision: every element id marks the first
matching entry of idPatterns; after the traversal the first marked entry wins;
otherwise the img alt attributes are scanned. -/
def detectByIDsAndAlt (form : Form) : CaptchaType :=
  let final := form.ids.foldl (fun st id => markFirst (toLowerStr id) st) idPatterns
  match final.find? (fun e => e.2 = ["__matched__"]) with
  | some e => e.1
  | none => altScan form.imgAlts

def detectByFieldNames (form : Form) : CaptchaType :=
  captchaV1.detectByFieldNames form

def detectByIframe (form : Form) : CaptchaType :=
  scanSrcsTable captchaV1.iframePatterns (form.iframeSrcs.map toLowerStr)

def hasGenericCaptchaMarkers (form : Form) : Bool :=
  captchaV1.hasGenericCaptchaMarkers form

/-- CaptchaDetector.DetectInForm, second revision: seven layers, the
IDs/alt-text layer inserted between data attributes and field names.  The pattern
tables are ordered slices, so no iteration-order parameters appear. -/
def DetectInForm (form : Form) : CaptchaType :=
  let c1 := detectByClasses form
  if c1 ≠ .none then c1 else
  let c2 := detectByScriptDomain form
  if c2 ≠ .none then c2 else
  let c3 := detectByDataAttributes form
  if c3 ≠ .none then c3 else
  let c4 := detectByIDsAndAlt form
  if c4 ≠ .none then c4 else
  let c5 := detectByFieldNames form
  if c5 ≠ .none then c5 else
  let c6 := detectByIframe form
  if c6 ≠ .none then c6 else
  if hasGenericCaptchaMarkers form then .other else .none

end captchaV2

/-! ## dit package: captcha merge of ExtractForms / ExtractFormsProba

The form/field classification itself (FormFieldClassifier.ExtractForms) is consumed
as an abstract input list; the embedded part is the captcha-detection merge loop of
dit's ExtractForms and ExtractFormsProba, which wraps each prediction into the
public FormResult / FormResultProba records. -/

namespace dit

/-- One entry of the classifier result list (r.Result.Form and r.Result.Fields). -/
structure FormPrediction where
  form : String
  fields : List (String × String)
deriving DecidableEq

/-- One entry of the probability result list (r.Proba.Form and r.Proba.Fields). -/
structure FormPredictionProba where
  form : List (String × ℝ)
  fields : List (String × List (String × ℝ))

/-- Public FormResult record of package dit. -/
structure FormResult where
  type : String
  captcha : String
  fields : List (String × String)
deriving DecidableEq

/-- Public FormResultProba record of package dit. -/
structure FormResultProba where
  type : List (String × ℝ)
  captcha : String
  fields : List (String × List (String × ℝ))

/-- The per-index captcha string of the merge loops: detect in the i-th form when it
exists, and map a none detection to the empty string. -/
def captchaStrAt (forms : List Form) (i : Nat) : String :=
  let capType := match forms[i]? with
    | some f => captchaV2.DetectInForm f
    | Option.none => CaptchaType.none
  if capType ≠ CaptchaType.none then capType.str else ""

/-- The output loop of dit.ExtractForms (after the classifier ran): one FormResult
per prediction, with the captcha merged in. -/
def ExtractForms (results : List FormPrediction) (forms : List Form) : List FormResult :=
  results.enum.map (fun p =>
    { type := p.2.form, captcha := captchaStrAt forms p.1, fields := p.2.fields })

/-- The output loop of dit.ExtractFormsProba: identical captcha merge. -/
def ExtractFormsProba (results : List FormPredictionProba) (forms : List Form) :
    List FormResultProba :=
  results.enum.map (fun p =>
    { type := p.2.form, captcha := captchaStrAt forms p.1, fields := p.2.fields })

end dit

/-! ## Form feature extractors (classifier package, form-features file) -/

/-- Value of one entry of an extractor mapping: Go map[string]any holding either a
bool indicator or a string (the form method). -/
inductive FeatValue where
  | b (v : Bool)
  | s (v : String)
deriving DecidableEq, Repr

namespace FormElements

/-- FormElements.ExtractDict.  counts abstracts htmlutil.GetTypeCounts (a count per
input type; internal/htmlutil is not under src/), inputCount abstracts
htmlutil.GetInputCount, method abstracts htmlutil.GetFormMethod.  The Go map literal
is embedded as the association list of its 14 entries in source-text order. -/
def ExtractDict (counts : String → Nat) (inputCount : Nat) (method : String) :
    List (String × FeatValue) :=
  [ ("has <textarea>", .b (decide (0 < counts "textarea")))
  , ("has <input type=radio>", .b (decide (0 < counts "radio")))
  , ("has <select>", .b (decide (0 < counts "select")))
  , ("has <input type=checkbox>", .b (decide (0 < counts "checkbox")))
  , ("has <input type=email>", .b (decide (0 < counts "email")))
  , ("2 or 3 inputs", .b (inputCount == 2 || inputCount == 3))
  , ("no <input type=password>", .b (counts "password" == 0))
  , ("exactly one <input type=password>", .b (counts "password" == 1))
  , ("exactly two <input type=password>", .b (counts "password" == 2))
  , ("no <input type=text>", .b (counts "text" == 0))
  , ("exactly one <input type=text>", .b (counts "text" == 1))
  , ("exactly two <input type=text>", .b (counts "text" == 2))
  , ("3 or more <input type=text>", .b (decide (3 ≤ counts "text")))
  , ("<form method", .s method) ]

end FormElements

/-- The fixed key set of FormElements.ExtractDict, in source-text order. -/
def formElementsKeys : List String :=
  [ "has <textarea>", "has <input type=radio>", "has <select>"
  , "has <input type=checkbox>", "has <input type=email>", "2 or 3 inputs"
  , "no <input type=password>", "exactly one <input type=password>"
  , "exactly two <input type=password>", "no <input type=text>"
  , "exactly one <input type=text>", "exactly two <input type=text>"
  , "3 or more <input type=text>", "<form method" ]

/-- The components of a parsed URL that FormUrl.ExtractString reads (net/url). -/
structure URLParts where
  path : String
  rawQuery : String
  fragment : String

/-- strings.ReplaceAll with the empty replacement and a one-character pattern
deletes every occurrence of that character. -/
def removeChar (s : String) (c : Char) : String :=
  ⟨s.data.filter (fun x => x ≠ c)⟩

/-- normalizeURLPart: delete every slash, underscore and hyphen, in source order. -/
def normalizeURLPart (part : String) : String :=
  removeChar (removeChar (removeChar part '/') '_') '-'

/-- The scheme-prefixing step of FormUrl.ExtractString: prepend http:// when the
action mentions no //. -/
def withScheme (action : String) : String :=
  if ¬ containsStr action "//" then "http://" ++ action else action

namespace FormUrl

/-- FormUrl.ExtractString.  action abstracts htmlutil.GetFormAction; parseURL
abstracts net/url's Parse, returning none exactly when Parse errors.  Note the
source reads u.RawQuery twice (for both params and query). -/
def ExtractString (parseURL : String → Option URLParts) (action : String) : String :=
  if action = "" then ""
  else
    let action2 := withScheme action
    match parseURL action2 with
    | Option.none => action2
    | some u =>
      normalizeURLPart u.path ++ normalizeURLPart u.rawQuery ++
        normalizeURLPart u.rawQuery ++ "#" ++ normalizeURLPart u.fragment

end FormUrl

/-! ## Numeric core: sparse vectors, softmax, PageTypeModel inference and training -/

/-- Modelled from the spec: SparseVector lives in internal/vectorizer, which is not
under src/; spec §3 gives the representation (a total dimension and an
index-to-value mapping with unique keys). -/
structure SparseVec where
  dim : Nat
  entries : List (Nat × ℝ)

/-- Modelled from the spec: the sparse dot product of a sparse vector with a dense
coefficient row (features.Dot in the source; internal/vectorizer not under src/). -/
def SparseVec.Dot (v : SparseVec) (w : List ℝ) : ℝ :=
  (v.entries.map (fun e => e.2 * w.getD e.1 0)).sum

/-- Modelled from the spec §4.5: softmax subtracts the maximal logit, exponentiates
and normalizes by the sum of exponentials (the softmax helper called by
ClassifyProba is in code not under src/). -/
noncomputable def softmax (logits : List ℝ) : List ℝ :=
  match logits with
  | [] => []
  | x :: xs =>
    let M := xs.foldl max x
    let exps := (x :: xs).map (fun z => Real.exp (z - M))
    exps.map (fun e => e / exps.sum)

/-- PageTypeModel of classifier/pagetype.go (the serialized fields; runtime
vectorizer state is abstracted into the feature vector input of inference). -/
structure PageTypeModel where
  Classes : List String
  Coef : List (List ℝ)
  Intercept : List ℝ

/-- The logit vector of ClassifyProba: logits[c] = features.Dot(Coef[c]) + Intercept[c].
The Go code indexes Coef[c] and Intercept[c] directly; a loaded model has one row and
one intercept per class (spec §4.6 makes a mismatch a fatal load error), so the getD
defaults are only reachable for models that cannot be loaded. -/
def logitsOf (m : PageTypeModel) (features : SparseVec) : List ℝ :=
  (List.range m.Classes.length).map
    (fun c => features.Dot (m.Coef.getD c []) + m.Intercept.getD c 0)

/-- ClassifyProba of classifier/pagetype.go: the result map result[Classes[c]] =
softmax(logits)[c], embedded as the association list in canonical class order
(with distinct class names this is exactly the Go map). -/
noncomputable def ClassifyProba (m : PageTypeModel) (features : SparseVec) :
    List (String × ℝ) :=
  m.Classes.zip (softmax (logitsOf m features))

/-- One step of the argmax loop of Classify: an entry replaces the current best
exactly when its probability is strictly greater. -/
noncomputable def argmaxStep (best p : String × ℝ) : String × ℝ :=
  if best.2 < p.2 then p else best

/-- The argmax loop of Classify: bestClass starts at the empty string, bestProb at
-1.0. -/
noncomputable def argmaxFold (l : List (String × ℝ)) : String × ℝ :=
  l.foldl argmaxStep ("", -1)

/-- Classify of classifier/pagetype.go.  iter is the runtime iteration order of the
Go map returned by ClassifyProba (Go randomizes map iteration, so the theorems
quantify over permutations of the canonical association list). -/
noncomputable def Classify (m : PageTypeModel) (features : SparseVec)
    (iter : List (String × ℝ)) : String :=
  (argmaxFold iter).1

/-- The classification the claim describes, in its own words: iterate the classes in
canonical order with a strict greater-than comparison, so of the classes sharing the
maximal probability the one earliest in Classes wins. -/
noncomputable def claimedClassify (m : PageTypeModel) (features : SparseVec) : String :=
  (argmaxFold (ClassifyProba m features)).1

/-! ## Training (classifier/pagetype.go TrainPageType) -/

/-- One iteration of the class-set loop of TrainPageType: an unseen label is
appended to classes and recorded in classSet with its insertion index. -/
def classStep (acc : List (String × Nat) × List String) (l : String) :
    List (String × Nat) × List String :=
  if (acc.1.lookup l).isSome then acc
  else (acc.1 ++ [(l, acc.2.length)], acc.2 ++ [l])

/-- The class-set loop of TrainPageType: classSet maps each label to its insertion
index, classes collects the distinct labels in first-occurrence order. -/
def buildClassPairs (labels : List String) : List (String × Nat) × List String :=
  labels.foldl classStep ([], [])

/-- The balanced class weights of TrainPageType:
n / (numClasses * classCounts[c]) when the class occurs, 1.0 otherwise. -/
noncomputable def classWeightsOf (y : List Nat) (numClasses n : Nat) : List ℝ :=
  (List.range numClasses).map
    (fun c => if 0 < y.count c then (n : ℝ) / ((numClasses : ℝ) * (y.count c : ℝ)) else 1)

/-- The sampleWeights slice of TrainPageType: per-sample weight of its class when
BalanceClass is set, the nil slice otherwise. -/
noncomputable def sampleWeightsOf (balance : Bool) (y : List Nat) (numClasses n : Nat) :
    Option (List ℝ) :=
  if balance then some (y.map (fun yi => (classWeightsOf y numClasses n).getD yi 0))
  else none

/-- Modelled from the spec: trainLogReg is not under src/; per spec §4.4 a nil
sample-weight slice means every sample contributes with uniform weight 1.0. -/
def effectiveWeights (w : Option (List ℝ)) (n : Nat) : List ℝ :=
  w.getD (List.replicate n 1)

/-- PageTypeTrainConfig of classifier/pagetype.go. -/
structure PageTypeTrainConfig where
  C : ℝ
  MaxIter : Nat
  Verbose : Bool
  BalanceClass : Bool

/-- TrainPageType of classifier/pagetype.go.  xData abstracts the per-document
concatenated feature vectors (built by internal/vectorizer, not under src/, one
vector per training document); trainLogReg (also not under src/) is an explicit
functional parameter, so every theorem below holds for any optimizer.  The Go code
evaluates xData[0].Dim, which panics on an empty corpus: that evaluation is the
head? match, and the panic is the none result.  It also reads labels[j] for every
j below the corpus size (a panic when labels is shorter); the getD default stands
for that panic and is unreachable under the length hypotheses of the theorems. -/
noncomputable def TrainPageType
    (trainLogReg : List SparseVec → List Nat → Nat → Nat → ℝ → Nat →
      Option (List ℝ) → List (List ℝ) × List ℝ)
    (xData : List SparseVec) (labels : List String) (config : PageTypeTrainConfig) :
    Option PageTypeModel :=
  let n := xData.length
  let pairs := buildClassPairs labels
  let classes := pairs.2
  match xData.head? with
  | Option.none => none
  | some x0 =>
    let totalDim := x0.dim
    let numClasses := classes.length
    let y := (List.range n).map (fun j => ((pairs.1.lookup (labels.getD j "")).getD 0))
    let reg := if config.C ≤ 0 then 5.0 else config.C
    let sw := sampleWeightsOf config.BalanceClass y numClasses n
    let ci := trainLogReg xData y numClasses totalDim reg config.MaxIter sw
    some { Classes := classes, Coef := ci.1, Intercept := ci.2 }

/-- The spec's description of the class list, in its own words: the distinct labels
in first-occurrence order. -/
def firstOccurrenceOrder : List String → List String
  | [] => []
  | x :: xs => x :: firstOccurrenceOrder (xs.filter (fun y => y ≠ x))
termination_by l => l.length
decreasing_by
  simp only [List.length_cons]
  exact Nat.lt_succ_of_le (List.length_filter_le _ _)

/-! ## Layer-order specification (claim C6) -/

/-- The first non-none result of an ordered list of detection layers, with the
generic-marker fallback mapping to other. -/
def layeredResult (layers : List CaptchaType) (generic : Bool) : CaptchaType :=
  match layers.find? (fun t => t != CaptchaType.none) with
  | some t => t
  | Option.none => if generic then .other else .none

theorem layeredResult_nil (g : Bool) :
    layeredResult [] g = if g then .other else .none := rfl

theorem layeredResult_cons (t : CaptchaType) (rest : List CaptchaType) (g : Bool) :
    layeredResult (t :: rest) g = if t ≠ CaptchaType.none then t else layeredResult rest g := by
  by_cases h : t = CaptchaType.none
  · simp [layeredResult, List.find?, h]
  · have hb : (t != CaptchaType.none) = true := by simp [bne_iff_ne, h]
    simp [layeredResult, List.find?, hb, h]

/-! ## Claim C6 -/

/-- Claim C6 (amended): DetectInForm consults its layers in a fixed order and
returns the first layer's result that is not none, with a generic-marker match
mapping to other.  For the classifier-package detector and the first revision of
the captcha package the order is classes, script domains, data attributes, field
names, iframes, generic markers (for every map iteration order); the second
revision of the captcha package inserts an element-ID/alt-text layer between the
data-attribute and field-name layers. -/
theorem c6_detectinform_layer_order :
    (∀ co so dao io f,
      classifier.DetectInForm co so dao io f =
        layeredResult
          [ classifier.detectByClasses co f
          , classifier.detectByScriptDomain so f
          , classifier.detectByDataAttributes dao f
          , classifier.detectByFieldNames f
          , classifier.detectByIframe io f ]
          (classifier.hasGenericCaptchaMarkers f)) ∧
    (∀ co so dao io f,
      captchaV1.DetectInForm co so dao io f =
        layeredResult
          [ captchaV1.detectByClasses co f
          , captchaV1.detectByScriptDomain so f
          , captchaV1.detectByDataAttributes dao f
          , captchaV1.detectByFieldNames f
          , captchaV1.detectByIframe io f ]
          (captchaV1.hasGenericCaptchaMarkers f)) ∧
    (∀ f,
      captchaV2.DetectInForm f =
        layeredResult
          [ captchaV2.detectByClasses f
          , captchaV2.detectByScriptDomain f
          , captchaV2.detectByDataAttributes f
          , captchaV2.detectByIDsAndAlt f
          , captchaV2.detectByFieldNames f
          , captchaV2.detectByIframe f ]
          (captchaV2.hasGenericCaptchaMarkers f)) := by
  refine ⟨fun co so dao io f => ?_, fun co so dao io f => ?_, fun f => ?_⟩
  · simp only [classifier.DetectInForm, layeredResult_cons, layeredResult_nil]
  · simp only [captchaV1.DetectInForm, layeredResult_cons, layeredResult_nil]
  · simp only [captchaV2.DetectInForm, layeredResult_cons, layeredResult_nil]

/-- A form whose only captcha marker is an element id matched by the second
revision's ID layer: one div with id embed-captcha. -/
def idOnlyForm : Form :=
  { html := "<div id=\"embed-captcha\"></div>"
  , scriptSrcs := []
  , parentScriptSrcs := []
  , scriptTexts := []
  , iframeSrcs := []
  , ids := ["embed-captcha"]
  , imgAlts := [] }

/-- Claim C6 counterexample: on idOnlyForm the second revision's DetectInForm
returns geetest from its ID layer, while the six-layer order stated by the claim
(classes, script domains, data attributes, field names, iframes, generic markers)
would fall through to the generic-marker layer and yield other. -/
theorem c6_detectinform_layer_order_counterexample :
    captchaV2.DetectInForm idOnlyForm = CaptchaType.geetest ∧
    layeredResult
      [ captchaV2.detectByClasses idOnlyForm
      , captchaV2.detectByScriptDomain idOnlyForm
      , captchaV2.detectByDataAttributes idOnlyForm
      , captchaV2.detectByFieldNames idOnlyForm
      , captchaV2.detectByIframe idOnlyForm ]
      (captchaV2.hasGenericCaptchaMarkers idOnlyForm) = CaptchaType.other ∧
    CaptchaType.geetest ≠ CaptchaType.other := by
  refine ⟨by decide, by decide, by decide⟩

/-! ## Claim C5 -/

/-- An entry of a literal pattern table matches hay when one of its patterns occurs. -/
def entryMatches (hay : String) (e : CaptchaType × List String) : Bool :=
  e.2.any (fun p => containsStr hay p)

theorem scanTable_eq_of_matches (hay : String) (c : CaptchaType) :
    ∀ o : List (CaptchaType × List String),
      (∀ e ∈ o, entryMatches hay e = true → e.1 = c) →
      (∃ e ∈ o, entryMatches hay e = true) →
      scanTable o hay = c := by
  intro o
  induction o with
  | nil => intro _ hex; rcases hex with ⟨e, he, _⟩; cases he
  | cons e rest ih =>
    intro hall hex
    rcases e with ⟨t, pats⟩
    by_cases hm : pats.any (fun p => containsStr hay p) = true
    · have : t = c := hall (t, pats) (List.mem_cons_self _ _) hm
      simp [scanTable, hm, this]
    · have hstep : scanTable ((t, pats) :: rest) hay = scanTable rest hay := by
        simp [scanTable, hm]
      rw [hstep]
      apply ih
      · intro e' he' hm'
        exact hall e' (List.mem_cons_of_mem _ he') hm'
      · rcases hex with ⟨e', he', hm'⟩
        rcases List.mem_cons.mp he' with h | h
        · subst h; exact absurd hm' hm
        · exact ⟨e', h, hm'⟩

theorem scanTable_eq_none (hay : String) :
    ∀ o : List (CaptchaType × List String),
      (∀ e ∈ o, entryMatches hay e = false) →
      scanTable o hay = CaptchaType.none := by
  intro o
  induction o with
  | nil => intro _; rfl
  | cons e rest ih =>
    intro hall
    rcases e with ⟨t, pats⟩
    have hm : pats.any (fun p => containsStr hay p) = false :=
      hall (t, pats) (List.mem_cons_self _ _)
    have hstep : scanTable ((t, pats) :: rest) hay = scanTable rest hay := by
      simp [scanTable, hm]
    rw [hstep]
    exact ih (fun e' he' => hall e' (List.mem_cons_of_mem _ he'))

/-- Two iteration orders of the same pattern table scan to the same result whenever
every pair of matching table entries carries the same captcha type. -/
theorem scanTable_perm_unique (t : List (CaptchaType × List String)) (hay : String)
    (o₁ o₂ : List (CaptchaType × List String))
    (h₁ : List.Perm o₁ t) (h₂ : List.Perm o₂ t)
    (huniq : ∀ e₁ ∈ t, ∀ e₂ ∈ t,
      entryMatches hay e₁ = true → entryMatches hay e₂ = true → e₁.1 = e₂.1) :
    scanTable o₁ hay = scanTable o₂ hay := by
  by_cases hex : ∃ e ∈ t, entryMatches hay e = true
  · rcases hex with ⟨e₀, he₀, hm₀⟩
    have key : ∀ o : List (CaptchaType × List String), List.Perm o t →
        scanTable o hay = e₀.1 := by
      intro o ho
      apply scanTable_eq_of_matches hay e₀.1 o
      · intro e he hm
        exact huniq e (ho.mem_iff.mp he) e₀ he₀ hm hm₀
      · exact ⟨e₀, ho.mem_iff.mpr he₀, hm₀⟩
    rw [key o₁ h₁, key o₂ h₂]
  · push_neg at hex
    have hfalse : ∀ o : List (CaptchaType × List String), List.Perm o t →
        scanTable o hay = CaptchaType.none := by
      intro o ho
      apply scanTable_eq_none hay o
      intro e he
      have := hex e (ho.mem_iff.mp he)
      simpa using this
    rw [hfalse o₁ h₁, hfalse o₂ h₂]

/-- Claim C5 (amended): for a fixed map iteration order every operation is a pure
deterministic function of its input; across runs DetectCaptchaInHTML is
deterministic whenever at most one captcha type's patterns match the lowercased
document, because Go randomizes map iteration between runs. -/
theorem c5_deterministic_detection (html : String)
    (dom₁ dom₂ cls₁ cls₂ : List (CaptchaType × List String))
    (hd₁ : List.Perm dom₁ classifier.domainPatterns)
    (hd₂ : List.Perm dom₂ classifier.domainPatterns)
    (hc₁ : List.Perm cls₁ classifier.htmlClassPatterns)
    (hc₂ : List.Perm cls₂ classifier.htmlClassPatterns)
    (hud : ∀ e₁ ∈ classifier.domainPatterns, ∀ e₂ ∈ classifier.domainPatterns,
      entryMatches (toLowerStr html) e₁ = true → entryMatches (toLowerStr html) e₂ = true →
        e₁.1 = e₂.1)
    (huc : ∀ e₁ ∈ classifier.htmlClassPatterns, ∀ e₂ ∈ classifier.htmlClassPatterns,
      entryMatches (toLowerStr html) e₁ = true → entryMatches (toLowerStr html) e₂ = true →
        e₁.1 = e₂.1) :
    classifier.DetectCaptchaInHTML dom₁ cls₁ html =
      classifier.DetectCaptchaInHTML dom₂ cls₂ html := by
  have hdom : scanTable dom₁ (toLowerStr html) = scanTable dom₂ (toLowerStr html) :=
    scanTable_perm_unique classifier.domainPatterns (toLowerStr html) dom₁ dom₂ hd₁ hd₂ hud
  have hcls : scanTable cls₁ (toLowerStr html) = scanTable cls₂ (toLowerStr html) :=
    scanTable_perm_unique classifier.htmlClassPatterns (toLowerStr html) cls₁ cls₂ hc₁ hc₂ huc
  simp only [classifier.DetectCaptchaInHTML, hdom, hcls]

/-- Witness for c5_deterministic_detection: on the document hcaptcha only the
hcaptcha entries match either table, so every iteration order returns the same
type. -/
theorem c5_deterministic_detection_witness :
    (∀ e₁ ∈ classifier.domainPatterns, ∀ e₂ ∈ classifier.domainPatterns,
      entryMatches (toLowerStr "hcaptcha") e₁ = true →
      entryMatches (toLowerStr "hcaptcha") e₂ = true → e₁.1 = e₂.1) ∧
    classifier.DetectCaptchaInHTML classifier.domainPatterns classifier.htmlClassPatterns
        "hcaptcha" =
      classifier.DetectCaptchaInHTML classifier.domainPatterns classifier.htmlClassPatterns
        "hcaptcha" := by
  refine ⟨by decide, ?_⟩
  exact c5_deterministic_detection "hcaptcha" _ _ _ _ (List.Perm.refl _) (List.Perm.refl _)
    (List.Perm.refl _) (List.Perm.refl _) (by decide) (by decide)

/-- The domain-pattern table in an iteration order that visits the recaptchav2
entry before the recaptcha entry (a legal Go map iteration order). -/
def domainPatternsAlt : List (CaptchaType × List String) :=
  (CaptchaType.recaptchav2, ["recaptcha/api.js", "recaptcha.*v2"]) ::
  (CaptchaType.recaptcha, ["google.com/recaptcha", "gstatic.com", "recaptcha"]) ::
  classifier.domainPatterns.drop 2

/-- Claim C5 counterexample: on the document recaptcha/api.js both the recaptcha
and the recaptchav2 patterns match, so two legal map iteration orders make two
runs of DetectCaptchaInHTML return different captcha types. -/
theorem c5_deterministic_detection_counterexample :
    classifier.DetectCaptchaInHTML classifier.domainPatterns classifier.htmlClassPatterns
        "recaptcha/api.js" = CaptchaType.recaptcha ∧
    classifier.DetectCaptchaInHTML domainPatternsAlt classifier.htmlClassPatterns
        "recaptcha/api.js" = CaptchaType.recaptchav2 ∧
    List.Perm domainPatternsAlt classifier.domainPatterns ∧
    CaptchaType.recaptcha ≠ CaptchaType.recaptchav2 := by
  refine ⟨by decide, by decide, ?_, by decide⟩
  exact List.Perm.swap _ _ _

/-! ## Claim C7 -/

/-- Claim C7: training on an empty corpus never produces a model: the Go code
panics at xData[0].Dim (the none result of the head? match), so TrainPageType is
fatal there, and on any nonempty corpus it returns a model, whatever the optimizer
computes. -/
theorem c7_train_empty_corpus_fatal :
    (∀ trainLogReg labels config,
      TrainPageType trainLogReg [] labels config = Option.none) ∧
    (∀ trainLogReg v rest labels config,
      (TrainPageType trainLogReg (v :: rest) labels config).isSome = true) := by
  exact ⟨fun _ _ _ => rfl, fun _ _ _ _ _ => rfl⟩

/-! ## Claim C8 -/

/-- Claim C8 counterexample: on a form with no inputs at all (every type count
zero, no method), the dict extractor FormElements.ExtractDict returns its full
14-entry mapping, not an empty mapping. -/
theorem c8_extractor_totality_counterexample :
    FormElements.ExtractDict (fun _ => 0) 0 "" ≠ [] ∧
    (FormElements.ExtractDict (fun _ => 0) 0 "").length = 14 := by
  exact ⟨by decide, by decide⟩

/-- Claim C8 (amended): every extractor is total and never propagates a parse
error; FormUrl.ExtractString returns the empty string when the action is missing
and returns the (scheme-prefixed) action string unchanged when URL parsing fails;
the dict extractor FormElements.ExtractDict always returns its fixed 14-key
mapping (never an error, but also never an empty mapping). -/
theorem c8_extractors_total :
    (∀ parseURL, FormUrl.ExtractString parseURL "" = "") ∧
    (∀ parseURL action, action ≠ "" → parseURL (withScheme action) = Option.none →
      FormUrl.ExtractString parseURL action = withScheme action) ∧
    (∀ counts inputCount method,
      (FormElements.ExtractDict counts inputCount method).map Prod.fst = formElementsKeys) := by
  refine ⟨fun parseURL => rfl, fun parseURL action ha hp => ?_, fun c i m => rfl⟩
  simp [FormUrl.ExtractString, ha, hp]

theorem c8_extractors_total_witness :
    ("a" ≠ "") ∧ FormUrl.ExtractString (fun _ => Option.none) "a" = withScheme "a" :=
  ⟨by decide, c8_extractors_total.2.1 (fun _ => Option.none) "a" (by decide) rfl⟩

/-! ## Claim C9 -/

/-- Claim C9: FormElements.ExtractDict always returns the same fixed 14 keys; the
three password-count indicators (counts equal to zero, one, two) are pairwise
mutually exclusive, and with three or more password inputs all three are false. -/
theorem c9_formelements_password_indicators
    (counts : String → Nat) (inputCount : Nat) (method : String) :
    ((FormElements.ExtractDict counts inputCount method).map Prod.fst = formElementsKeys) ∧
    ((FormElements.ExtractDict counts inputCount method).lookup "no <input type=password>"
      = some (.b (counts "password" == 0))) ∧
    ((FormElements.ExtractDict counts inputCount method).lookup
        "exactly one <input type=password>" = some (.b (counts "password" == 1))) ∧
    ((FormElements.ExtractDict counts inputCount method).lookup
        "exactly two <input type=password>" = some (.b (counts "password" == 2))) ∧
    (((counts "password" == 0) && (counts "password" == 1)) = false) ∧
    (((counts "password" == 0) && (counts "password" == 2)) = false) ∧
    (((counts "password" == 1) && (counts "password" == 2)) = false) ∧
    (3 ≤ counts "password" →
      (counts "password" == 0) = false ∧ (counts "password" == 1) = false ∧
        (counts "password" == 2) = false) := by
  refine ⟨rfl, ?_, ?_, ?_, ?_, ?_, ?_, ?_⟩
  · rfl
  · rfl
  · rfl
  · rcases counts "password" with _ | _ | k <;> simp
  · rcases counts "password" with _ | _ | k <;> simp
  · rcases counts "password" with _ | _ | k <;> simp
  · intro h
    refine ⟨?_, ?_, ?_⟩ <;> (simp only [beq_eq_false_iff_ne, ne_eq]; omega)

theorem c9_formelements_password_indicators_witness :
    (3 ≤ 5) ∧
    ((5 == 0) = false ∧ (5 == 1) = false ∧ (5 == 2) = false) :=
  ⟨by decide,
    (c9_formelements_password_indicators (fun _ => 5) 0 "").2.2.2.2.2.2.2 (by decide)⟩

/-! ## Claim C10 -/

theorem CaptchaType.str_eq_none_iff (t : CaptchaType) :
    t.str = "none" ↔ t = CaptchaType.none := by
  cases t <;> decide

/-- The captcha string merged into each output record is empty or the string of a
detected non-none captcha type, and is never the string none. -/
theorem captchaStrAt_spec (forms : List Form) (i : Nat) :
    dit.captchaStrAt forms i ≠ "none" ∧
    (dit.captchaStrAt forms i = "" ∨
      ∃ t : CaptchaType, t ≠ CaptchaType.none ∧ dit.captchaStrAt forms i = t.str) := by
  unfold dit.captchaStrAt
  cases h : forms[i]? with
  | none => simp
  | some f =>
    by_cases hct : captchaV2.DetectInForm f = CaptchaType.none
    · simp [hct]
    · refine ⟨?_, Or.inr ⟨captchaV2.DetectInForm f, hct, by simp [hct]⟩⟩
      simp only [hct, if_pos, ne_eq, ite_not]
      intro hs
      have := (CaptchaType.str_eq_none_iff _).mp (by simpa [hct] using hs)
      exact hct this

/-- Claim C10: in every FormResult and FormResultProba produced by the merge loops
of dit.ExtractForms and dit.ExtractFormsProba, the Captcha field is the empty
string or the string form of a detected captcha type, and never the string none. -/
theorem c10_captcha_field_never_none (results : List dit.FormPrediction)
    (resultsP : List dit.FormPredictionProba) (forms : List Form) :
    (∀ fr ∈ dit.ExtractForms results forms,
      fr.captcha ≠ "none" ∧
      (fr.captcha = "" ∨ ∃ t : CaptchaType, t ≠ CaptchaType.none ∧ fr.captcha = t.str)) ∧
    (∀ fr ∈ dit.ExtractFormsProba resultsP forms,
      fr.captcha ≠ "none" ∧
      (fr.captcha = "" ∨ ∃ t : CaptchaType, t ≠ CaptchaType.none ∧ fr.captcha = t.str)) := by
  constructor
  · intro fr hfr
    rcases List.mem_map.mp hfr with ⟨p, _, rfl⟩
    exact captchaStrAt_spec forms p.1
  · intro fr hfr
    rcases List.mem_map.mp hfr with ⟨p, _, rfl⟩
    exact captchaStrAt_spec forms p.1

theorem c10_captcha_field_never_none_witness :
    ((⟨"login", "", []⟩ : dit.FormResult) ∈ dit.ExtractForms [⟨"login", []⟩] []) ∧
    ((⟨"login", "", []⟩ : dit.FormResult).captcha ≠ "none") :=
  ⟨by decide,
    ((c10_captcha_field_never_none [⟨"login", []⟩] [] []).1 ⟨"login", "", []⟩ (by decide)).1⟩

/-! ## Softmax lemmas -/

theorem sum_map_div (l : List ℝ) (c : ℝ) :
    (l.map (fun a => a / c)).sum = l.sum / c := by
  induction l with
  | nil => simp
  | cons x xs ih => simp [ih, add_div]

theorem softmax_cons (x : ℝ) (xs : List ℝ) :
    softmax (x :: xs) =
      ((x :: xs).map (fun z => Real.exp (z - xs.foldl max x))).map
        (fun e => e / ((x :: xs).map (fun z => Real.exp (z - xs.foldl max x))).sum) := rfl

theorem softmax_length (logits : List ℝ) : (softmax logits).length = logits.length := by
  cases logits with
  | nil => rfl
  | cons x xs => rw [softmax_cons]; simp

theorem exps_sum_pos (x : ℝ) (xs : List ℝ) :
    0 < ((x :: xs).map (fun z => Real.exp (z - xs.foldl max x))).sum := by
  apply List.sum_pos
  · intro a ha
    rcases List.mem_map.mp ha with ⟨z, _, rfl⟩
    exact Real.exp_pos _
  · simp

theorem softmax_sum_one (logits : List ℝ) (h : logits ≠ []) :
    (softmax logits).sum = 1 := by
  cases logits with
  | nil => exact absurd rfl h
  | cons x xs =>
    rw [softmax_cons, sum_map_div]
    exact div_self (ne_of_gt (exps_sum_pos x xs))

theorem softmax_mem_bounds (logits : List ℝ) :
    ∀ p ∈ softmax logits, 0 < p ∧ p ≤ 1 := by
  cases logits with
  | nil => intro p hp; simp [softmax] at hp
  | cons x xs =>
    rw [softmax_cons]
    intro p hp
    rcases List.mem_map.mp hp with ⟨e, he, rfl⟩
    have hepos : 0 < e := by
      rcases List.mem_map.mp he with ⟨z, _, rfl⟩
      exact Real.exp_pos _
    have hS := exps_sum_pos x xs
    constructor
    · exact div_pos hepos hS
    · rw [div_le_one hS]
      refine List.single_le_sum (fun a ha => ?_) e he
      rcases List.mem_map.mp ha with ⟨z, _, rfl⟩
      exact le_of_lt (Real.exp_pos _)

/-! ## Claim C2 -/

/-- Claim C2: ClassifyProba computes logits[c] = dot(features, Coef[c]) +
Intercept[c] and returns the softmax of the logit vector keyed by the classes; the
returned probabilities sum to exactly 1 (the real-number idealization of the float
tolerance) and every component lies in the unit interval. -/
theorem c2_classifyproba_softmax_normalized (m : PageTypeModel) (features : SparseVec)
    (h : m.Classes ≠ []) :
    ClassifyProba m features = m.Classes.zip (softmax (logitsOf m features)) ∧
    logitsOf m features = (List.range m.Classes.length).map
      (fun c => SparseVec.Dot features (m.Coef.getD c []) + m.Intercept.getD c 0) ∧
    ((ClassifyProba m features).map Prod.snd).sum = 1 ∧
    (∀ p ∈ ClassifyProba m features, 0 ≤ p.2 ∧ p.2 ≤ 1) := by
  have hlen : (softmax (logitsOf m features)).length = m.Classes.length := by
    rw [softmax_length]; simp [logitsOf]
  have hsnd : (ClassifyProba m features).map Prod.snd = softmax (logitsOf m features) := by
    unfold ClassifyProba
    exact List.map_snd_zip _ _ (le_of_eq hlen)
  refine ⟨rfl, rfl, ?_, ?_⟩
  · rw [hsnd]
    apply softmax_sum_one
    intro hnil
    apply h
    have hz : m.Classes.length = 0 := by
      have := congrArg List.length hnil
      simpa [logitsOf] using this
    exact List.length_eq_zero.mp hz
  · intro p hp
    have h2 : p.2 ∈ softmax (logitsOf m features) := by
      rw [← hsnd]
      exact List.mem_map_of_mem _ hp
    have hb := softmax_mem_bounds _ p.2 h2
    exact ⟨le_of_lt hb.1, hb.2⟩

theorem c2_classifyproba_softmax_normalized_witness :
    ((⟨["x"], [[]], [0]⟩ : PageTypeModel).Classes ≠ []) ∧
    ((ClassifyProba ⟨["x"], [[]], [0]⟩ ⟨0, []⟩).map Prod.snd).sum = 1 :=
  ⟨by decide,
    (c2_classifyproba_softmax_normalized ⟨["x"], [[]], [0]⟩ ⟨0, []⟩ (by decide)).2.2.1⟩

/-! ## Argmax-fold lemmas -/

theorem argmaxStep_cases (b p : String × ℝ) : argmaxStep b p = p ∨ argmaxStep b p = b := by
  unfold argmaxStep
  split
  · exact Or.inl rfl
  · exact Or.inr rfl

theorem foldl_argmaxStep_mem (l : List (String × ℝ)) :
    ∀ init, l.foldl argmaxStep init = init ∨ l.foldl argmaxStep init ∈ l := by
  induction l with
  | nil => intro init; exact Or.inl rfl
  | cons x xs ih =>
    intro init
    rw [List.foldl_cons]
    rcases ih (argmaxStep init x) with h | h
    · rw [h]
      rcases argmaxStep_cases init x with h2 | h2 <;> rw [h2]
      · exact Or.inr (List.mem_cons_self _ _)
      · exact Or.inl rfl
    · exact Or.inr (List.mem_cons_of_mem _ h)

theorem foldl_argmaxStep_le_init (l : List (String × ℝ)) :
    ∀ init, init.2 ≤ (l.foldl argmaxStep init).2 := by
  induction l with
  | nil => intro init; exact le_refl _
  | cons x xs ih =>
    intro init
    rw [List.foldl_cons]
    refine le_trans ?_ (ih (argmaxStep init x))
    unfold argmaxStep
    split
    · exact le_of_lt (by assumption)
    · exact le_refl _

theorem foldl_argmaxStep_le_mem (l : List (String × ℝ)) :
    ∀ init, ∀ p ∈ l, p.2 ≤ (l.foldl argmaxStep init).2 := by
  induction l with
  | nil => intro init p hp; cases hp
  | cons x xs ih =>
    intro init p hp
    rw [List.foldl_cons]
    rcases List.mem_cons.mp hp with rfl | h
    · refine le_trans ?_ (foldl_argmaxStep_le_init xs (argmaxStep init p))
      unfold argmaxStep
      split
      · exact le_refl _
      · exact le_of_not_lt (by assumption)
    · exact ih (argmaxStep init x) p h

/-! ## Claim C1 -/

/-- Claim C1 (amended): for every iteration order of the probability map, Classify
returns the name of an entry attaining the maximal probability; when the classes
attaining the maximum share one name (in particular when the maximum is unique),
the result coincides with the canonical first-wins argmax the claim describes.
Under ties between distinct classes the result depends on the randomized map
iteration order, not on the canonical class order. -/
theorem c1_classify_argmax (m : PageTypeModel) (features : SparseVec)
    (iter : List (String × ℝ))
    (hne : m.Classes ≠ [])
    (hperm : List.Perm iter (ClassifyProba m features)) :
    (∃ p ∈ ClassifyProba m features,
      Classify m features iter = p.1 ∧ ∀ q ∈ ClassifyProba m features, q.2 ≤ p.2) ∧
    ((∀ p ∈ ClassifyProba m features, ∀ q ∈ ClassifyProba m features,
        (∀ r ∈ ClassifyProba m features, r.2 ≤ p.2) →
        (∀ r ∈ ClassifyProba m features, r.2 ≤ q.2) → p.1 = q.1) →
      Classify m features iter = claimedClassify m features) := by
  have hPlen : (ClassifyProba m features).length = m.Classes.length := by
    unfold ClassifyProba
    rw [List.length_zip, softmax_length]
    simp [logitsOf]
  have hPne : ClassifyProba m features ≠ [] := by
    intro hz
    apply hne
    have := congrArg List.length hz
    rw [hPlen] at this
    exact List.length_eq_zero.mp this
  have hposAll : ∀ q ∈ ClassifyProba m features, 0 < q.2 := by
    intro q hq
    rcases q with ⟨a, b⟩
    have h2 : b ∈ softmax (logitsOf m features) := (List.of_mem_zip hq).2
    exact (softmax_mem_bounds _ b h2).1
  have key : ∀ o, List.Perm o (ClassifyProba m features) →
      argmaxFold o ∈ ClassifyProba m features ∧
      ∀ q ∈ ClassifyProba m features, q.2 ≤ (argmaxFold o).2 := by
    intro o ho
    have hone : o ≠ [] := by
      intro h0
      subst h0
      exact hPne (ho.symm.eq_nil)
    obtain ⟨q0, hq0⟩ := List.exists_mem_of_ne_nil o hone
    have hq0max : q0.2 ≤ (argmaxFold o).2 := foldl_argmaxStep_le_mem o _ q0 hq0
    rcases foldl_argmaxStep_mem o ("", -1) with hinit | hmem
    · exfalso
      have hq0pos : 0 < q0.2 := hposAll q0 (ho.mem_iff.mp hq0)
      have : (argmaxFold o).2 = -1 := by rw [argmaxFold, hinit]
      rw [this] at hq0max
      linarith
    · refine ⟨ho.mem_iff.mp hmem, ?_⟩
      intro q hq
      exact foldl_argmaxStep_le_mem o _ q (ho.mem_iff.mpr hq)
  have h1 := key iter hperm
  have h2 := key (ClassifyProba m features) (List.Perm.refl _)
  refine ⟨⟨argmaxFold iter, h1.1, rfl, h1.2⟩, ?_⟩
  intro huniq
  exact huniq (argmaxFold iter) h1.1 (argmaxFold (ClassifyProba m features)) h2.1 h1.2 h2.2

theorem c1_classify_argmax_witness :
    ((⟨["a"], [[]], [0]⟩ : PageTypeModel).Classes ≠ []) ∧
    (∃ p ∈ ClassifyProba ⟨["a"], [[]], [0]⟩ ⟨0, []⟩,
      Classify ⟨["a"], [[]], [0]⟩ ⟨0, []⟩ (ClassifyProba ⟨["a"], [[]], [0]⟩ ⟨0, []⟩) = p.1 ∧
      ∀ q ∈ ClassifyProba ⟨["a"], [[]], [0]⟩ ⟨0, []⟩, q.2 ≤ p.2) :=
  ⟨by decide,
    (c1_classify_argmax ⟨["a"], [[]], [0]⟩ ⟨0, []⟩ _ (by decide) (List.Perm.refl _)).1⟩

/-- The two-class model used to refute the canonical tie-break claim: no features,
zero coefficient rows and zero intercepts, so both classes get probability 1/2. -/
noncomputable def tieModel : PageTypeModel := ⟨["a", "b"], [[], []], [0, 0]⟩

/-- Claim C1 counterexample: on tieModel both classes have probability 1/2;
iterating the probability map in the order b, a (a legal Go map iteration order)
makes Classify return b, while the claimed canonical first-wins tie-break returns
a. -/
theorem c1_classify_argmax_counterexample :
    List.Perm [("b", (1 : ℝ) / 2), ("a", 1 / 2)] (ClassifyProba tieModel ⟨0, []⟩) ∧
    Classify tieModel ⟨0, []⟩ [("b", (1 : ℝ) / 2), ("a", 1 / 2)] = "b" ∧
    claimedClassify tieModel ⟨0, []⟩ = "a" ∧
    ("b" : String) ≠ "a" := by
  have hlog : logitsOf tieModel ⟨0, []⟩ = [0, 0] := by
    simp [logitsOf, tieModel, SparseVec.Dot, List.range_succ]
  have hsm : softmax [(0 : ℝ), 0] = [1 / 2, 1 / 2] := by
    rw [softmax_cons]
    norm_num [Real.exp_zero]
  have hproba : ClassifyProba tieModel ⟨0, []⟩ = [("a", (1 : ℝ) / 2), ("b", 1 / 2)] := by
    unfold ClassifyProba
    rw [hlog, hsm]
    rfl
  refine ⟨?_, ?_, ?_, by decide⟩
  · rw [hproba]
    exact List.Perm.swap _ _ _
  · unfold Classify argmaxFold
    rw [List.foldl_cons, List.foldl_cons, List.foldl_nil]
    have s1 : argmaxStep ("", -1) ("b", (1 : ℝ) / 2) = ("b", 1 / 2) := by
      unfold argmaxStep
      norm_num
    have s2 : argmaxStep ("b", (1 : ℝ) / 2) ("a", 1 / 2) = ("b", 1 / 2) := by
      unfold argmaxStep
      norm_num
    rw [s1, s2]
  · unfold claimedClassify
    rw [hproba]
    unfold argmaxFold
    rw [List.foldl_cons, List.foldl_cons, List.foldl_nil]
    have s1 : argmaxStep ("", -1) ("a", (1 : ℝ) / 2) = ("a", 1 / 2) := by
      unfold argmaxStep
      norm_num
    have s2 : argmaxStep ("a", (1 : ℝ) / 2) ("b", 1 / 2) = ("a", 1 / 2) := by
      unfold argmaxStep
      norm_num
    rw [s1, s2]

/-! ## Claim C3 -/

/-- Claim C3: with BalanceClass enabled every sample of class c receives weight
n / (numClasses * count(c)) and the count of its class is positive (so only
occurring classes are ever weighted); with BalanceClass disabled the sample-weight
slice stays nil and the effective weight of every sample is 1.0 (the nil-means-
uniform convention of the optimizer is modelled from the spec). -/
theorem c3_balanced_sample_weights (y : List Nat) (numClasses n : Nat)
    (hy : ∀ yi ∈ y, yi < numClasses) (hn : y.length = n) :
    (∃ w : List ℝ, sampleWeightsOf true y numClasses n = some w ∧ w.length = n ∧
      ∀ (j v : Nat), y[j]? = some v →
        w[j]? = some ((n : ℝ) / ((numClasses : ℝ) * (y.count v : ℝ))) ∧ 0 < y.count v) ∧
    sampleWeightsOf false y numClasses n = none ∧
    effectiveWeights (sampleWeightsOf false y numClasses n) n = List.replicate n 1 := by
  refine ⟨⟨y.map (fun yi => (classWeightsOf y numClasses n).getD yi 0), rfl, ?_, ?_⟩, rfl, rfl⟩
  · rw [List.length_map, hn]
  · intro j v hj
    have hv : v ∈ y := List.getElem?_mem hj
    have hvlt : v < numClasses := hy v hv
    have hcount : 0 < y.count v := List.count_pos_iff.mpr hv
    refine ⟨?_, hcount⟩
    rw [List.getElem?_map, hj, Option.map_some']
    congr 1
    have hcw : (classWeightsOf y numClasses n)[v]? =
        some (if 0 < y.count v then (n : ℝ) / ((numClasses : ℝ) * (y.count v : ℝ)) else 1) := by
      unfold classWeightsOf
      rw [List.getElem?_map, List.getElem?_range hvlt, Option.map_some']
    rw [List.getD_eq_getElem?_getD, hcw]
    simp [hcount]

theorem c3_balanced_sample_weights_witness :
    (∀ yi ∈ ([0, 1, 0] : List Nat), yi < 2) ∧
    (sampleWeightsOf false [0, 1, 0] 2 3 = none ∧
      effectiveWeights (sampleWeightsOf false [0, 1, 0] 2 3) 3 = List.replicate 3 1) :=
  ⟨by decide, (c3_balanced_sample_weights [0, 1, 0] 2 3 (by decide) (by decide)).2⟩

/-! ## First-occurrence order lemmas -/

theorem mem_firstOccurrenceOrder_aux :
    ∀ (n : Nat) (labels : List String), labels.length ≤ n →
      ∀ x, (x ∈ firstOccurrenceOrder labels ↔ x ∈ labels) := by
  intro n
  induction n with
  | zero =>
    intro labels hlen x
    have hnil : labels = [] := List.length_eq_zero.mp (Nat.le_zero.mp hlen)
    subst hnil
    rw [firstOccurrenceOrder]
  | succ n ih =>
    intro labels hlen x
    cases labels with
    | nil => rw [firstOccurrenceOrder]
    | cons y ys =>
      rw [firstOccurrenceOrder]
      have hys : ys.length ≤ n := by
        simpa [Nat.succ_le_succ_iff] using hlen
      have hflen : (ys.filter (fun z => z ≠ y)).length ≤ n :=
        le_trans (List.length_filter_le _ _) hys
      constructor
      · intro hx
        rcases List.mem_cons.mp hx with rfl | hx2
        · exact List.mem_cons_self _ _
        · have hmem := (ih _ hflen x).mp hx2
          exact List.mem_cons_of_mem _ (List.mem_of_mem_filter hmem)
      · intro hx
        by_cases hxy : x = y
        · subst hxy
          exact List.mem_cons_self _ _
        · rcases List.mem_cons.mp hx with rfl | hx2
          · exact absurd rfl hxy
          · refine List.mem_cons_of_mem _ ((ih _ hflen x).mpr ?_)
            exact List.mem_filter.mpr ⟨hx2, by simp [hxy]⟩

theorem mem_firstOccurrenceOrder (x : String) (labels : List String) :
    x ∈ firstOccurrenceOrder labels ↔ x ∈ labels :=
  mem_firstOccurrenceOrder_aux labels.length labels (le_refl _) x

theorem nodup_firstOccurrenceOrder_aux :
    ∀ (n : Nat) (labels : List String), labels.length ≤ n →
      (firstOccurrenceOrder labels).Nodup := by
  intro n
  induction n with
  | zero =>
    intro labels hlen
    have hnil : labels = [] := List.length_eq_zero.mp (Nat.le_zero.mp hlen)
    subst hnil
    rw [firstOccurrenceOrder]
    exact List.nodup_nil
  | succ n ih =>
    intro labels hlen
    cases labels with
    | nil => rw [firstOccurrenceOrder]; exact List.nodup_nil
    | cons y ys =>
      rw [firstOccurrenceOrder]
      have hys : ys.length ≤ n := by
        simpa [Nat.succ_le_succ_iff] using hlen
      have hflen : (ys.filter (fun z => z ≠ y)).length ≤ n :=
        le_trans (List.length_filter_le _ _) hys
      rw [List.nodup_cons]
      refine ⟨?_, ih _ hflen⟩
      intro hy
      have := (mem_firstOccurrenceOrder_aux n _ hflen y).mp hy
      have := (List.mem_filter.mp this).2
      simp at this

theorem nodup_firstOccurrenceOrder (labels : List String) :
    (firstOccurrenceOrder labels).Nodup :=
  nodup_firstOccurrenceOrder_aux labels.length labels (le_refl _)

/-! ## classStep fold lemmas -/

theorem lookup_append (l₁ l₂ : List (String × Nat)) (a : String) :
    (l₁ ++ l₂).lookup a =
      match l₁.lookup a with
      | some v => some v
      | Option.none => l₂.lookup a := by
  induction l₁ with
  | nil => simp [List.lookup]
  | cons p rest ih =>
    rcases p with ⟨k, v⟩
    cases h : (a == k) with
    | true => simp [List.lookup, h]
    | false => simp [List.lookup, h, ih]

theorem lookup_snoc_isSome (cs : List (String × Nat)) (classes : List String)
    (l : String) (h1 : ∀ x, (cs.lookup x).isSome ↔ x ∈ classes) :
    ∀ x, ((cs ++ [(l, classes.length)]).lookup x).isSome ↔ x ∈ classes ++ [l] := by
  intro x
  rw [lookup_append]
  cases hcs : cs.lookup x with
  | some v =>
    have hx : x ∈ classes := (h1 x).mp (by simp [hcs])
    simp [hx, List.mem_append]
  | none =>
    have hxc : x ∉ classes := fun hm => by
      have := (h1 x).mpr hm
      rw [hcs] at this
      simp at this
    by_cases hxl : x = l
    · subst hxl
      simp [List.lookup, List.mem_append]
    · have hbeq : (x == l) = false := by simp [hxl]
      simp [List.lookup, hbeq, hxc, List.mem_append, hxl]

theorem foldl_classStep_snd :
    ∀ (labels : List String) (cs : List (String × Nat)) (classes : List String),
      (∀ x, (cs.lookup x).isSome ↔ x ∈ classes) →
      (labels.foldl classStep (cs, classes)).2
        = classes ++ firstOccurrenceOrder (labels.filter (fun l => l ∉ classes)) := by
  intro labels
  induction labels with
  | nil =>
    intro cs classes hinv
    rw [List.foldl_nil, List.filter_nil, firstOccurrenceOrder, List.append_nil]
  | cons l ls ih =>
    intro cs classes hinv
    rw [List.foldl_cons]
    by_cases hl : l ∈ classes
    · have hsome : (cs.lookup l).isSome := (hinv l).mpr hl
      have hstep : classStep (cs, classes) l = (cs, classes) := by
        simp [classStep, hsome]
      rw [hstep, ih cs classes hinv, List.filter_cons]
      simp [hl]
    · have hnone : ¬ (cs.lookup l).isSome := fun hs => hl ((hinv l).mp hs)
      have hstep : classStep (cs, classes) l = (cs ++ [(l, classes.length)], classes ++ [l]) := by
        simp [classStep, hnone]
      rw [hstep, ih _ _ (lookup_snoc_isSome cs classes l hinv)]
      rw [List.append_assoc]
      congr 1
      rw [List.filter_cons]
      have hcond : (decide (l ∉ classes)) = true := by simp [hl]
      simp only [hcond, if_true]
      rw [firstOccurrenceOrder]
      rw [List.singleton_append]
      congr 1
      rw [List.filter_filter]
      congr 1
      apply List.filter_congr
      intro a _
      by_cases ha1 : a = l <;> by_cases ha2 : a ∈ classes <;>
        simp [ha1, ha2, List.mem_append]

theorem foldl_classStep_lookup :
    ∀ (labels : List String) (cs : List (String × Nat)) (classes : List String),
      (∀ x, (cs.lookup x).isSome ↔ x ∈ classes) →
      (∀ x i, cs.lookup x = some i → classes[i]? = some x) →
      (∀ x, ((labels.foldl classStep (cs, classes)).1.lookup x).isSome ↔
        x ∈ (labels.foldl classStep (cs, classes)).2) ∧
      (∀ x i, (labels.foldl classStep (cs, classes)).1.lookup x = some i →
        ((labels.foldl classStep (cs, classes)).2)[i]? = some x) := by
  intro labels
  induction labels with
  | nil =>
    intro cs classes h1 h2
    exact ⟨h1, h2⟩
  | cons l ls ih =>
    intro cs classes h1 h2
    rw [List.foldl_cons]
    by_cases hl : l ∈ classes
    · have hsome : (cs.lookup l).isSome := (h1 l).mpr hl
      have hstep : classStep (cs, classes) l = (cs, classes) := by
        simp [classStep, hsome]
      rw [hstep]
      exact ih cs classes h1 h2
    · have hnone : ¬ (cs.lookup l).isSome := fun hs => hl ((h1 l).mp hs)
      have hstep : classStep (cs, classes) l = (cs ++ [(l, classes.length)], classes ++ [l]) := by
        simp [classStep, hnone]
      rw [hstep]
      apply ih
      · exact lookup_snoc_isSome cs classes l h1
      · intro x i hx
        rw [lookup_append] at hx
        cases hcs : cs.lookup x with
        | some v =>
          rw [hcs] at hx
          have hvi : v = i := by simpa using hx
          subst hvi
          have hgot := h2 x v hcs
          have hlt : v < classes.length := by
            rcases List.getElem?_eq_some.mp hgot with ⟨hbound, _⟩
            exact hbound
          rw [List.getElem?_append_left hlt]
          exact hgot
        | none =>
          rw [hcs] at hx
          by_cases hxl : x = l
          · subst hxl
            have hsingle : List.lookup x [(x, classes.length)] = some classes.length := by
              simp [List.lookup]
            rw [hsingle] at hx
            have hi : classes.length = i := by simpa using hx
            subst hi
            rw [List.getElem?_concat_length]
          · have hbeq : (x == l) = false := by simp [hxl]
            simp [List.lookup, hbeq] at hx

theorem buildClassPairs_snd (labels : List String) :
    (buildClassPairs labels).2 = firstOccurrenceOrder labels := by
  have h := foldl_classStep_snd labels [] [] (by intro x; simp [List.lookup])
  rw [buildClassPairs, h, List.nil_append]
  congr 1
  apply List.filter_eq_self.mpr
  intro a _
  simp

theorem buildClassPairs_lookup (labels : List String) :
    (∀ x, ((buildClassPairs labels).1.lookup x).isSome ↔ x ∈ (buildClassPairs labels).2) ∧
    (∀ x i, (buildClassPairs labels).1.lookup x = some i →
      ((buildClassPairs labels).2)[i]? = some x) := by
  have h := foldl_classStep_lookup labels [] []
    (by intro x; simp [List.lookup])
    (by intro x i hx; simp [List.lookup] at hx)
  exact h

/-! ## Claim C4 -/

/-- Claim C4: TrainPageType builds Classes as exactly the distinct labels in
first-occurrence order; classSet maps each label to the index of that label inside
Classes (the index used for the y encoding and hence the coefficient rows), and in
inference the output probability list is keyed by Classes in that same order, its
c-th entry being computed from Coef[c] and Intercept[c]. -/
theorem c4_classes_first_occurrence_order (labels : List String) (m : PageTypeModel)
    (features : SparseVec) :
    ((buildClassPairs labels).2 = firstOccurrenceOrder labels) ∧
    ((buildClassPairs labels).2.Nodup) ∧
    (∀ x, x ∈ (buildClassPairs labels).2 ↔ x ∈ labels) ∧
    (∀ l ∈ labels, ∃ i : Nat, (buildClassPairs labels).1.lookup l = some i ∧
      ((buildClassPairs labels).2)[i]? = some l) ∧
    ((ClassifyProba m features).map Prod.fst = m.Classes) ∧
    (ClassifyProba m features =
      m.Classes.zip (softmax ((List.range m.Classes.length).map
        (fun c => SparseVec.Dot features (m.Coef.getD c []) + m.Intercept.getD c 0)))) ∧
    (∀ trainLogReg v rest config,
      (TrainPageType trainLogReg (v :: rest) labels config).map PageTypeModel.Classes
        = some (firstOccurrenceOrder labels)) := by
  have hsnd := buildClassPairs_snd labels
  have hlkp := buildClassPairs_lookup labels
  refine ⟨hsnd, ?_, ?_, ?_, ?_, rfl, ?_⟩
  · rw [hsnd]; exact nodup_firstOccurrenceOrder labels
  · intro x
    rw [hsnd]
    exact mem_firstOccurrenceOrder x labels
  · intro l hl
    have hmem : l ∈ (buildClassPairs labels).2 := by
      rw [hsnd]
      exact (mem_firstOccurrenceOrder l labels).mpr hl
    have hsome : ((buildClassPairs labels).1.lookup l).isSome := (hlkp.1 l).mpr hmem
    rcases Option.isSome_iff_exists.mp hsome with ⟨i, hi⟩
    exact ⟨i, hi, hlkp.2 l i hi⟩
  · have hlen : (softmax (logitsOf m features)).length = m.Classes.length := by
      rw [softmax_length]; simp [logitsOf]
    unfold ClassifyProba
    exact List.map_fst_zip _ _ (le_of_eq hlen.symm)
  · intro trainLogReg v rest config
    have hred : (TrainPageType trainLogReg (v :: rest) labels config).map
        PageTypeModel.Classes = some ((buildClassPairs labels).2) := rfl
    rw [hred, hsnd]
